import Mathlib

/-!
Verification of the moffit-leaderboard client ("MoffittBoard").

The repository consists of four near-duplicate revisions of one React page.
The domain logic relevant to the specification — elapsed-time accounting,
the check-in/check-out record transitions, leaderboard ranking, the rank
label, and the daily reset policy — is embedded below, one namespace per
source revision:

  * `Page`     — `src/src/app/page.tsx`, first revision in that file
  * `PartZero` — `src/unnamed/part_000`
  * `PartOne`  — `src/unnamed/part_001`
  * `PartTwo`  — `src/unnamed/part_002`

Conventions of the embedding:
  * JavaScript numbers holding millisecond epoch timestamps and minute
    totals are embedded as `Int`; all values appearing in the code are
    exact integers, for which JavaScript arithmetic is exact and
    `Math.floor (a / b)` (with `b > 0`) coincides with `Int.fdiv a b`.
  * The optional `checkInTime` field is `Option Int`.  The guard
    `if (!loggedInUser?.checkInTime) return` in the check-out handlers
    tests JavaScript truthiness, so both an absent `checkInTime` and a
    `checkInTime` equal to `0` abort the handler; the embedding keeps
    this behaviour.
  * Handlers that can return early without writing anything yield
    `Option User` (`none` = early return, no update issued).
  * `Array.prototype.sort` is stable with a total comparator;
    the comparator `(a, b) => b.timeSpent - a.timeSpent` keeps `a` before
    `b` iff `b.timeSpent ≤ a.timeSpent`.  A stable sort by a total
    preorder has a unique result, so it is embedded as
    `List.insertionSort` (stable) with that relation.
  * The daily-reset code converts the clock to the reference timezone
    ("America/Los_Angeles") with `toLocaleString` and then truncates with
    `setHours(0,0,0,0)`; the embedding works directly with
    reference-timezone wall-clock milliseconds, where that truncation is
    `now - now % 86400000`.
-/

/-- One row of the `users` table (the `User` interface shared by all
revisions; `display_name` exists only in `part_000` and is `none`
elsewhere). -/
structure User where
  id : Int
  name : String
  email : String
  timeSpent : Int
  isCheckedIn : Bool
  checkInTime : Option Int
  display_name : Option String
deriving DecidableEq

/-- The elapsed-minutes computation appearing in every check-out handler
and periodic update: `Math.floor((now - checkInTime) / 60000)`.  No
clamping of negative values is performed anywhere in the sources. -/
def timeElapsed (checkInTime now : Int) : Int :=
  Int.fdiv (now - checkInTime) 60000

namespace Page

/-- `handleCheckIn` of `src/src/app/page.tsx` (first revision): writes
`isCheckedIn: true, checkInTime: now` unconditionally; no other field is
touched and no already-checked-in test exists. -/
def handleCheckIn (u : User) (now : Int) : User :=
  { u with isCheckedIn := true, checkInTime := some now }

/-- `handleCheckOut` of `src/src/app/page.tsx` (first revision): early
return when `checkInTime` is falsy (absent or `0`); otherwise writes
`isCheckedIn: false, timeSpent: timeSpent + timeElapsed, checkInTime:
null`. -/
def handleCheckOut (u : User) (now : Int) : Option User :=
  match u.checkInTime with
  | none => none
  | some t =>
    if t = 0 then none
    else
      some { u with isCheckedIn := false,
                    timeSpent := u.timeSpent + timeElapsed t now,
                    checkInTime := none }

/-- `getUserRank` of `src/src/app/page.tsx` (first revision):
`users.findIndex(user => user.id === userId) + 1`; an absent id gives
`-1 + 1 = 0`. -/
def getUserRank (userId : Int) (users : List User) : Nat :=
  match users.findIdx? (fun u => u.id == userId) with
  | none => 0
  | some i => i + 1

end Page

namespace PartZero

/-- The ordering realised by the comparator
`(a, b) => b.timeSpent - a.timeSpent`: `a` may stay before `b` iff the
comparator is `≤ 0`. -/
def byTimeDesc (a b : User) : Prop :=
  b.timeSpent ≤ a.timeSpent

instance : DecidableRel byTimeDesc :=
  fun a b => inferInstanceAs (Decidable (b.timeSpent ≤ a.timeSpent))

instance : IsTotal User byTimeDesc :=
  ⟨fun a b => le_total b.timeSpent a.timeSpent⟩

instance : IsTrans User byTimeDesc :=
  ⟨fun _ _ _ hab hbc => le_trans hbc hab⟩

/-- `[...usersList].sort((a, b) => b.timeSpent - a.timeSpent)` — the
stable descending sort used by `getUserRank` in `part_000` (and the
second revision of `page.tsx`). -/
def sortUsers (users : List User) : List User :=
  List.insertionSort byTimeDesc users

/-- `getUserRank` of `part_000` (and of the second revision of
`page.tsx`): rank is position in the sorted copy plus one, and an absent
id yields `usersList.length`. -/
def getUserRank (userId : Int) (usersList : List User) : Nat :=
  match (sortUsers usersList).findIdx? (fun u => u.id == userId) with
  | none => usersList.length
  | some i => i + 1

/-- Midnight truncation `resetTime.setHours(0,0,0,0)` applied to the
current reference-timezone wall clock. -/
def resetTime (now : Int) : Int :=
  now - now % 86400000

/-- `shouldResetLeaderboard` of `part_000`: due when no last-reset value
is stored, or when the stored one is strictly before today's midnight. -/
def shouldResetLeaderboard (lastReset : Option Int) (now : Int) : Bool :=
  match lastReset with
  | none => true
  | some t => decide (t < resetTime now)

/-- `resetLeaderboard` of `part_000`: one unfiltered update writing
`timeSpent: 0, isCheckedIn: false, checkInTime: null` to every row. -/
def resetLeaderboard (users : List User) : List User :=
  users.map fun u => { u with timeSpent := 0, isCheckedIn := false, checkInTime := none }

/-- `handleCheckIn` of `part_000`: like `Page.handleCheckIn` but also
re-writes `timeSpent` with its current value (a no-op). -/
def handleCheckIn (u : User) (now : Int) : User :=
  { u with isCheckedIn := true, checkInTime := some now, timeSpent := u.timeSpent }

/-- `handleCheckOut` of `part_000`: clears the session but does NOT add
any elapsed time to `timeSpent` (crediting is left to the per-minute
interval of that revision). -/
def handleCheckOut (u : User) (_now : Int) : Option User :=
  match u.checkInTime with
  | none => none
  | some t =>
    if t = 0 then none
    else some { u with isCheckedIn := false, checkInTime := none }

end PartZero

namespace PartOne

/-- The per-minute interval body of `part_001`: while checked in, writes
`timeSpent + Math.floor((now - (checkInTime || 0)) / 60000)` without
touching `checkInTime`. -/
def updateTime (u : User) (now : Int) : User :=
  if u.isCheckedIn then
    { u with timeSpent := u.timeSpent + timeElapsed (u.checkInTime.getD 0) now }
  else u

end PartOne

namespace PartTwo

/-- `handleCheckIn` of `part_002`: writes `isCheckedIn: true,
checkInTime: now, timeSpent: timeSpent` (the last a no-op preserve). -/
def handleCheckIn (u : User) (now : Int) : User :=
  { u with isCheckedIn := true, checkInTime := some now, timeSpent := u.timeSpent }

end PartTwo

/-- `getRankDisplay`, identical in all revisions: indices 0, 1, 2 map to
"1st", "2nd", "3rd"; every other index is rendered with the template
literal as decimal numeral of index + 1 followed by "th". -/
def getRankDisplay (index : Nat) : String :=
  match index with
  | 0 => "1st"
  | 1 => "2nd"
  | 2 => "3rd"
  | _ => Nat.repr (index + 1) ++ "th"

/-- C1: for `checkInTime ≤ now` the elapsed-minutes computation is
exactly the floor of `(now - checkInTime) / 60000` — equal to the
truncating natural-number division of the difference — and is
non-negative. -/
theorem timeElapsed_eq_floor (checkInTime now : Int) (h : checkInTime ≤ now) :
    timeElapsed checkInTime now = ((now - checkInTime).toNat / 60000 : Nat)
    ∧ 0 ≤ timeElapsed checkInTime now := by
  have h' : 0 ≤ now - checkInTime := by omega
  constructor
  · unfold timeElapsed
    rw [← Int.toNat_of_nonneg h']
    exact (Int.ofNat_fdiv _ _).symm
  · exact Int.fdiv_nonneg h' (by norm_num)

/-- C1 witness: a session open for 150000 ms yields 2 minutes and one
open for 90000 ms yields 1 minute, not 1.5. -/
theorem timeElapsed_eq_floor_witness :
    (timeElapsed 0 150000 = ((150000 - 0 : Int).toNat / 60000 : Nat)
      ∧ 0 ≤ timeElapsed 0 150000)
    ∧ timeElapsed 0 150000 = 2 ∧ timeElapsed 0 90000 = 1 :=
  ⟨timeElapsed_eq_floor 0 150000 (by decide), by decide, by decide⟩

/-- C2 (code bug): under clock skew the code does NOT clamp: with
`checkInTime = 120000` and `now = 0` it computes `-2` elapsed minutes and
a check-out propagates it, writing `timeSpent = 10 + (-2) = 8`. -/
theorem timeElapsed_skew_not_clamped :
    timeElapsed 120000 0 = -2
    ∧ (Page.handleCheckOut
        { id := 1, name := "a", email := "a@b", timeSpent := 10,
          isCheckedIn := true, checkInTime := some 120000,
          display_name := none } 0).map User.timeSpent = some 8 := by
  decide

/-- C3 counterexample: for the five-record set below and the absent id
`99`, the `part_000` rank lookup returns `5` — the list length, not
`length + 1 = 6` — and the plain `findIndex + 1` variant of `page.tsx`
returns `0`. -/
theorem getUserRank_absent_returns_length :
    PartZero.getUserRank 99
      [⟨1, "a", "a@x", 50, false, none, none⟩,
       ⟨2, "b", "b@x", 40, false, none, none⟩,
       ⟨3, "c", "c@x", 30, false, none, none⟩,
       ⟨4, "d", "d@x", 20, false, none, none⟩,
       ⟨5, "e", "e@x", 10, false, none, none⟩] = 5
    ∧ PartZero.getUserRank 99
      [⟨1, "a", "a@x", 50, false, none, none⟩,
       ⟨2, "b", "b@x", 40, false, none, none⟩,
       ⟨3, "c", "c@x", 30, false, none, none⟩,
       ⟨4, "d", "d@x", 20, false, none, none⟩,
       ⟨5, "e", "e@x", 10, false, none, none⟩] ≠ 6
    ∧ Page.getUserRank 99
      [⟨1, "a", "a@x", 50, false, none, none⟩,
       ⟨2, "b", "b@x", 40, false, none, none⟩,
       ⟨3, "c", "c@x", 30, false, none, none⟩,
       ⟨4, "d", "d@x", 20, false, none, none⟩,
       ⟨5, "e", "e@x", 10, false, none, none⟩] = 0 := by
  decide

/-- C3 amended: a rank lookup for an id that occurs in no record returns
`records.length` in the `part_000` / sorted variant (so `5` on a
5-record set) and `0` in the plain `findIndex + 1` variant, never
failing. -/
theorem getUserRank_absent (records : List User) (userId : Int)
    (h : records.all (fun u => !(u.id == userId)) = true) :
    PartZero.getUserRank userId records = records.length
    ∧ Page.getUserRank userId records = 0 := by
  have h' : ∀ u ∈ records, (u.id == userId) = false := by
    intro u hu
    have := (List.all_eq_true.mp h) u hu
    simpa using this
  constructor
  · have hnone : (PartZero.sortUsers records).findIdx? (fun u => u.id == userId) = none := by
      rw [List.findIdx?_eq_none_iff]
      intro u hu
      exact h' u (by simpa [PartZero.sortUsers] using hu)
    simp [PartZero.getUserRank, hnone]
  · have hnone : records.findIdx? (fun u => u.id == userId) = none := by
      rw [List.findIdx?_eq_none_iff]
      exact h'
    simp [Page.getUserRank, hnone]

/-- C3 witness: instantiation of the amended statement on a concrete
5-record set missing id `99`. -/
theorem getUserRank_absent_witness :
    ([⟨1, "a", "a@x", 50, false, none, none⟩,
      ⟨2, "b", "b@x", 40, false, none, none⟩,
      ⟨3, "c", "c@x", 30, false, none, none⟩,
      ⟨4, "d", "d@x", 20, false, none, none⟩,
      ⟨6, "f", "f@x", 10, false, none, none⟩] : List User).all
        (fun u => !(u.id == 99)) = true
    ∧ (PartZero.getUserRank 99
        [⟨1, "a", "a@x", 50, false, none, none⟩,
         ⟨2, "b", "b@x", 40, false, none, none⟩,
         ⟨3, "c", "c@x", 30, false, none, none⟩,
         ⟨4, "d", "d@x", 20, false, none, none⟩,
         ⟨6, "f", "f@x", 10, false, none, none⟩]
        = ([⟨1, "a", "a@x", 50, false, none, none⟩,
            ⟨2, "b", "b@x", 40, false, none, none⟩,
            ⟨3, "c", "c@x", 30, false, none, none⟩,
            ⟨4, "d", "d@x", 20, false, none, none⟩,
            ⟨6, "f", "f@x", 10, false, none, none⟩] : List User).length
       ∧ Page.getUserRank 99
        [⟨1, "a", "a@x", 50, false, none, none⟩,
         ⟨2, "b", "b@x", 40, false, none, none⟩,
         ⟨3, "c", "c@x", 30, false, none, none⟩,
         ⟨4, "d", "d@x", 20, false, none, none⟩,
         ⟨6, "f", "f@x", 10, false, none, none⟩] = 0) :=
  ⟨by decide, getUserRank_absent _ 99 (by decide)⟩

/-- C4 counterexample: invoking check-in on an already checked-in record
is not rejected and does not leave the record unchanged — the stored
`checkInTime` of `5` is overwritten with the new `now = 100`. -/
theorem checkIn_while_checkedIn_changes_state :
    Page.handleCheckIn ⟨1, "a", "a@b", 10, true, some 5, none⟩ 100
      ≠ ⟨1, "a", "a@b", 10, true, some 5, none⟩
    ∧ (Page.handleCheckIn ⟨1, "a", "a@b", 10, true, some 5, none⟩ 100).checkInTime
      = some 100 := by
  decide

/-- C4 amended: no `InvalidTransition` rejection exists — invoking
check-in while already `CheckedIn` silently succeeds again, setting
`isCheckedIn = true` and overwriting `checkInTime` with the new `now`
(discarding the open session's start), while `timeSpent` is preserved. -/
theorem handleCheckIn_overwrites (u : User) (now : Int) (h : u.isCheckedIn = true) :
    (Page.handleCheckIn u now).isCheckedIn = true
    ∧ (Page.handleCheckIn u now).checkInTime = some now
    ∧ (Page.handleCheckIn u now).timeSpent = u.timeSpent :=
  ⟨rfl, rfl, rfl⟩

/-- C4 witness: instantiation of the amended statement on a concrete
checked-in record. -/
theorem handleCheckIn_overwrites_witness :
    (⟨1, "a", "a@b", 10, true, some 5, none⟩ : User).isCheckedIn = true
    ∧ ((Page.handleCheckIn ⟨1, "a", "a@b", 10, true, some 5, none⟩ 100).isCheckedIn = true
       ∧ (Page.handleCheckIn ⟨1, "a", "a@b", 10, true, some 5, none⟩ 100).checkInTime = some 100
       ∧ (Page.handleCheckIn ⟨1, "a", "a@b", 10, true, some 5, none⟩ 100).timeSpent
         = (⟨1, "a", "a@b", 10, true, some 5, none⟩ : User).timeSpent) :=
  ⟨rfl, handleCheckIn_overwrites _ 100 rfl⟩

/-- C5 counterexample: the `part_000` check-out never credits elapsed
time — a record checked in at `t = 1` with `priorTotal = 10`, checked out
at `now = 150001` (elapsed 2 minutes), keeps `timeSpent = 10`, not `12`;
and in the `page.tsx` variant the claim's own instance `t = 0` hits the
JavaScript falsiness guard, so no successful check-out happens at all. -/
theorem checkOut_credit_counterexample :
    (PartZero.handleCheckOut ⟨1, "a", "a@b", 10, true, some 1, none⟩ 150001).map
      User.timeSpent = some 10
    ∧ timeElapsed 1 150001 = 2
    ∧ Page.handleCheckOut ⟨1, "a", "a@b", 10, true, some 0, none⟩ 150000 = none := by
  decide

/-- C5 amended: for a checked-in record with a present non-zero
`checkInTime = t` (a `checkInTime` of `0` is falsy in JavaScript and
blocks the handler), the `page.tsx` check-out succeeds and produces
`isCheckedIn = false`, `checkInTime = null`, and
`timeSpent = priorTotal + timeElapsed t now`; the `part_000` check-out
instead leaves `timeSpent` unchanged, crediting only via its per-minute
interval. -/
theorem handleCheckOut_success (u : User) (t now : Int)
    (h : u.checkInTime = some t) (h0 : t ≠ 0) :
    Page.handleCheckOut u now
      = some { u with isCheckedIn := false, checkInTime := none,
                      timeSpent := u.timeSpent + timeElapsed t now }
    ∧ PartZero.handleCheckOut u now
      = some { u with isCheckedIn := false, checkInTime := none } := by
  constructor
  · simp [Page.handleCheckOut, h, h0]
  · simp [PartZero.handleCheckOut, h, h0]

/-- C5 witness: checking out at `now = 150001` a record checked in at
`t = 1` with prior total `10` gives a new total of `12` in the `page.tsx`
variant and `10` in the `part_000` variant. -/
theorem handleCheckOut_success_witness :
    (Page.handleCheckOut ⟨1, "a", "a@b", 10, true, some 1, none⟩ 150001
       = some { (⟨1, "a", "a@b", 10, true, some 1, none⟩ : User) with
                  isCheckedIn := false, checkInTime := none,
                  timeSpent := (10 : Int) + timeElapsed 1 150001 }
     ∧ PartZero.handleCheckOut ⟨1, "a", "a@b", 10, true, some 1, none⟩ 150001
       = some { (⟨1, "a", "a@b", 10, true, some 1, none⟩ : User) with
                  isCheckedIn := false, checkInTime := none })
    ∧ (Page.handleCheckOut ⟨1, "a", "a@b", 10, true, some 1, none⟩ 150001).map
        User.timeSpent = some 12 :=
  ⟨handleCheckOut_success _ 1 150001 rfl (by decide), by decide⟩

/-- C6: from `CheckedOut`, a check-in produces `isCheckedIn = true` and
`checkInTime = now` and leaves `timeSpent` and every other field
unmodified, in both the `page.tsx` and the `part_002` revision (which
agree as functions on such records). -/
theorem handleCheckIn_from_checkedOut (u : User) (now : Int)
    (h : u.isCheckedIn = false) :
    Page.handleCheckIn u now = { u with isCheckedIn := true, checkInTime := some now }
    ∧ (Page.handleCheckIn u now).timeSpent = u.timeSpent
    ∧ (Page.handleCheckIn u now).id = u.id
    ∧ (Page.handleCheckIn u now).name = u.name
    ∧ (Page.handleCheckIn u now).email = u.email
    ∧ (Page.handleCheckIn u now).display_name = u.display_name
    ∧ PartTwo.handleCheckIn u now = Page.handleCheckIn u now :=
  ⟨rfl, rfl, rfl, rfl, rfl, rfl, rfl⟩

/-- C6 witness: instantiation on a concrete checked-out record. -/
theorem handleCheckIn_from_checkedOut_witness :
    (⟨1, "a", "a@b", 10, false, none, none⟩ : User).isCheckedIn = false
    ∧ Page.handleCheckIn ⟨1, "a", "a@b", 10, false, none, none⟩ 7
      = { (⟨1, "a", "a@b", 10, false, none, none⟩ : User) with
            isCheckedIn := true, checkInTime := some 7 } :=
  ⟨rfl, (handleCheckIn_from_checkedOut ⟨1, "a", "a@b", 10, false, none, none⟩ 7 rfl).1⟩

/-- C9 (code bug): a check-out under clock skew decreases `timeSpent` —
with `checkInTime = 180000`, prior total `10`, and `now = 60000`, the
code writes `timeSpent = 10 + (-2) = 8 < 10`, violating the
outside-of-reset monotonicity the specification states. -/
theorem timeSpent_decreases_on_skew :
    (Page.handleCheckOut ⟨2, "b", "b@x", 10, true, some 180000, none⟩ 60000).map
      User.timeSpent = some 8
    ∧ (⟨2, "b", "b@x", 10, true, some 180000, none⟩ : User).timeSpent = 10
    ∧ timeElapsed 180000 60000 = -2 := by
  decide

/-- C10: for every zero-based index of at least 3 the rank label is the
decimal numeral of `index + 1` followed by "th" — only indices 0, 1, 2
get "1st", "2nd", "3rd" — so ranks 21, 22, 23 render as "21th", "22th",
"23th" instead of standard English ordinals. -/
theorem getRankDisplay_spec (i : Nat) (h : 3 ≤ i) :
    getRankDisplay i = Nat.repr (i + 1) ++ "th"
    ∧ getRankDisplay 0 = "1st" ∧ getRankDisplay 1 = "2nd" ∧ getRankDisplay 2 = "3rd"
    ∧ getRankDisplay 20 = "21th" ∧ getRankDisplay 21 = "22th"
    ∧ getRankDisplay 22 = "23th" := by
  refine ⟨?_, rfl, rfl, rfl, by decide, by decide, by decide⟩
  match i, h with
  | (n + 3), _ => rfl

/-- C10 witness: instantiation at zero-based index 20 (displayed rank
21). -/
theorem getRankDisplay_spec_witness :
    3 ≤ 20
    ∧ (getRankDisplay 20 = Nat.repr (20 + 1) ++ "th"
       ∧ getRankDisplay 0 = "1st" ∧ getRankDisplay 1 = "2nd" ∧ getRankDisplay 2 = "3rd"
       ∧ getRankDisplay 20 = "21th" ∧ getRankDisplay 21 = "22th"
       ∧ getRankDisplay 22 = "23th") :=
  ⟨by decide, getRankDisplay_spec 20 (by decide)⟩

/-- Helper for C7: inserting an element whose `timeSpent` differs from
`t` does not change the `timeSpent = t` sublist. -/
theorem filter_orderedInsert_ne (t : Int) (x : User) (hx : (x.timeSpent == t) = false)
    (s : List User) :
    (List.orderedInsert PartZero.byTimeDesc x s).filter (fun u => u.timeSpent == t)
      = s.filter (fun u => u.timeSpent == t) := by
  induction s with
  | nil => simp [hx]
  | cons b s ih =>
    simp only [List.orderedInsert]
    split
    · simp [List.filter_cons, hx]
    · simp only [List.filter_cons, ih]

/-- Helper for C7: inserting an element whose `timeSpent` equals `t`
places it in front of every element of the `timeSpent = t` sublist,
because `orderedInsert` only walks past strictly larger keys. -/
theorem filter_orderedInsert_eq (t : Int) (x : User) (hx : x.timeSpent = t)
    (s : List User) :
    (List.orderedInsert PartZero.byTimeDesc x s).filter (fun u => u.timeSpent == t)
      = x :: s.filter (fun u => u.timeSpent == t) := by
  induction s with
  | nil => simp [hx]
  | cons b s ih =>
    simp only [List.orderedInsert]
    split
    · next hle => simp [List.filter_cons, hx]
    · next hgt =>
      have hb : (b.timeSpent == t) = false := by
        simp only [PartZero.byTimeDesc, not_le] at hgt
        simp only [beq_eq_false_iff_ne, ne_eq]
        omega
      simp [List.filter_cons, hb, ih]

/-- Helper for C7: the stable sort preserves, for every value `t`, the
input sublist of records whose `timeSpent` equals `t` — equal-key records
keep their relative input order. -/
theorem filter_sortUsers (t : Int) (l : List User) :
    (PartZero.sortUsers l).filter (fun u => u.timeSpent == t)
      = l.filter (fun u => u.timeSpent == t) := by
  induction l with
  | nil => rfl
  | cons x l ih =>
    simp only [PartZero.sortUsers, List.insertionSort] at ih ⊢
    by_cases hx : x.timeSpent = t
    · rw [filter_orderedInsert_eq t x hx, ih, List.filter_cons]
      simp [hx]
    · rw [filter_orderedInsert_ne t x (by simpa using hx), ih, List.filter_cons]
      simp [hx]

/-- C7: the lookup sorts a copy of the input with a stable sort that is
1-based descending in `timeSpent` — the sorted copy is a permutation of
the input, is sorted under "higher `timeSpent` first", and preserves the
relative input order of equal-`timeSpent` records — and on the input
order `timeSpent = 30, 30, 10` the three users receive ranks 1, 2, 3
(first seen wins the tie). -/
theorem getUserRank_ordering_stable :
    (∀ l : List User,
        List.Sorted PartZero.byTimeDesc (PartZero.sortUsers l)
      ∧ List.Perm (PartZero.sortUsers l) l
      ∧ ∀ t : Int, (PartZero.sortUsers l).filter (fun u => u.timeSpent == t)
            = l.filter (fun u => u.timeSpent == t))
    ∧ PartZero.getUserRank 1
        [⟨1, "a", "a@x", 30, false, none, none⟩,
         ⟨2, "b", "b@x", 30, false, none, none⟩,
         ⟨3, "c", "c@x", 10, false, none, none⟩] = 1
    ∧ PartZero.getUserRank 2
        [⟨1, "a", "a@x", 30, false, none, none⟩,
         ⟨2, "b", "b@x", 30, false, none, none⟩,
         ⟨3, "c", "c@x", 10, false, none, none⟩] = 2
    ∧ PartZero.getUserRank 3
        [⟨1, "a", "a@x", 30, false, none, none⟩,
         ⟨2, "b", "b@x", 30, false, none, none⟩,
         ⟨3, "c", "c@x", 10, false, none, none⟩] = 3 := by
  refine ⟨fun l => ⟨?_, ?_, fun t => filter_sortUsers t l⟩, by decide, by decide, by decide⟩
  · exact List.sorted_insertionSort PartZero.byTimeDesc l
  · exact List.perm_insertionSort PartZero.byTimeDesc l

/-- C8: the reset decision is true exactly when no last-reset timestamp
is stored or the stored one is strictly before the most recent
reference-timezone midnight at-or-before `now` (`resetTime now`, shown
here to be that boundary); applying the reset maps every record to
`timeSpent = 0, isCheckedIn = false, checkInTime = null`; and in the
concrete scenario `lastResetAt` = day-0 23:00 (82800000 ms) with `now` =
day-1 00:30 (88200000 ms) the reset is due. -/
theorem dailyReset_spec :
    (∀ now : Int, PartZero.shouldResetLeaderboard none now = true)
    ∧ (∀ t now : Int,
        PartZero.shouldResetLeaderboard (some t) now = true ↔ t < PartZero.resetTime now)
    ∧ (∀ now : Int,
        PartZero.resetTime now ≤ now
        ∧ PartZero.resetTime now % 86400000 = 0
        ∧ now - PartZero.resetTime now < 86400000)
    ∧ (∀ records : List User,
        PartZero.resetLeaderboard records
          = records.map (fun u =>
              { u with timeSpent := 0, isCheckedIn := false, checkInTime := none })
        ∧ (PartZero.resetLeaderboard records).all
            (fun u => u.timeSpent == 0 && !u.isCheckedIn && u.checkInTime.isNone) = true)
    ∧ PartZero.shouldResetLeaderboard (some 82800000) 88200000 = true
    ∧ PartZero.resetTime 88200000 = 86400000 := by
  refine ⟨fun _ => rfl, fun t now => ?_, fun now => ⟨?_, ?_, ?_⟩,
          fun records => ⟨rfl, ?_⟩, by decide, by decide⟩
  · simp [PartZero.shouldResetLeaderboard]
  · simp only [PartZero.resetTime]
    omega
  · simp only [PartZero.resetTime]
    omega
  · simp only [PartZero.resetTime]
    omega
  · simp [PartZero.resetLeaderboard, List.all_eq_true]
